import Mathlib

/-
Shallow embedding of `bocadillo/applications.py` (the `App` class) and of the
host-allowlist test `tests/test_allowed_hosts.py`.

Modelling conventions:
- Python objects referenced by several fields (`self.router` inside the
  exception middleware, `self._exception_middleware` inside the ASGI chain)
  are represented by reference markers (`AsgiNode.routerRef`,
  `AsgiNode.excMiddlewareRef`) inside value trees, so that in-place mutation
  of the shared object is a field update on the `App` record, exactly as the
  aliasing behaves in the source.
- A Python `raise` is modelled by returning the state unchanged together with
  `some message`; normal return is the new state together with `none`.
  The raise in `add_asgi_middleware` happens before any assignment, which the
  embedding mirrors statement by statement.
- External collaborators (`Router`, `Lifespan`, the middleware base classes,
  `settings`) come from libraries outside this repository; they are modelled
  as registries that record exactly the calls the `App` delegates to them.
-/

/-- Exception classes as used by the handler mapping. `HTTPError` is the class
wired in by `App.__init__`; every other class is an opaque tag. -/
inductive ExcClass where
  | HTTPError
  | other (n : Nat)
  deriving DecidableEq

/-- Handler callables. `error_to_json` and `error_to_text` are the two handlers
imported from `error_handlers`; user handlers are opaque tags. -/
inductive Handler where
  | error_to_json
  | error_to_text
  | user (n : Nat)
  deriving DecidableEq

/-- Event handler callables. `check_app` is the startup guard defined inside
`App.__init__`; user handlers are opaque tags. -/
inductive EventHandler where
  | check_app
  | user (n : Nat)
  deriving DecidableEq

/-- Keyword arguments forwarded to a middleware constructor (`**kwargs`);
values are opaque. -/
abbrev Kwargs := List (String × Nat)

/-- A middleware class. `call` is `some ps` when the class has a `__call__`
attribute whose signature has parameter names `ps`, `none` otherwise
(`hasattr(middleware_cls, "__call__")` / `inspect.signature`). -/
structure MiddlewareCls where
  name : String
  call : Option (List String)
  deriving DecidableEq

/-- The external `Router` (from `.routing`). `id` models object identity:
it is fixed at construction and no router operation changes it.
`mounts` records the sub-apps registered through `mount`. -/
structure Router where
  id : Nat
  mounts : List (String × Nat)
  deriving DecidableEq

/-- `Router()` — a fresh empty router. -/
def Router.new : Router := ⟨0, []⟩

/-- The value returned by `router.route(pattern)`: a decorator bound to this
router and pattern. -/
structure RouteDecorator where
  router_id : Nat
  pattern : String
  deriving DecidableEq

def Router.route (r : Router) (pattern : String) : RouteDecorator :=
  ⟨r.id, pattern⟩

/-- The keyword arguments of `websocket_route`. -/
structure WSRouteArgs where
  pattern : String
  auto_accept : Bool
  value_type : Option String
  receive_type : Option String
  send_type : Option String
  caught_close_codes : Option (List Int)
  deriving DecidableEq

/-- The value returned by `router.websocket_route(...)`: a decorator bound to
this router and these arguments. -/
structure WSRouteDecorator where
  router_id : Nat
  args : WSRouteArgs
  deriving DecidableEq

def Router.websocket_route (r : Router) (args : WSRouteArgs) : WSRouteDecorator :=
  ⟨r.id, args⟩

/-- `router.mount(prefix, app)`: registers the sub-app in place and returns
`None` (modelled as `Unit`). -/
def Router.mount (r : Router) (pre : String) (sub : Nat) : Router × Unit :=
  ({ r with mounts := r.mounts ++ [(pre, sub)] }, ())

/-- The external `Lifespan` registry (from `starlette.routing`). `id` models
object identity; `handlers` records `(event, handler)` registrations in
order. -/
structure Lifespan where
  id : Nat
  handlers : List (String × EventHandler)
  deriving DecidableEq

/-- `Lifespan()` — a fresh empty registry. -/
def Lifespan.new : Lifespan := ⟨0, []⟩

/-- `lifespan.add_event_handler(event, handler)`. -/
def Lifespan.add_event_handler (l : Lifespan) (event : String) (h : EventHandler) :
    Lifespan :=
  { l with handlers := l.handlers ++ [(event, h)] }

/-- The list of callbacks registered under one event name, in order. -/
def Lifespan.callbacks (l : Lifespan) (event : String) : List EventHandler :=
  (l.handlers.filter (fun p => p.1 == event)).map (fun p => p.2)

/-- The tree of ASGI applications. `routerRef` and `excMiddlewareRef` are
reference markers for the shared `self.router` and
`self._exception_middleware` objects; `cls` is an externally defined
middleware class applied to an inner app. -/
inductive AsgiNode where
  | routerRef
  | excMiddlewareRef
  | serverError (inner : AsgiNode) (handler : Handler)
  | requestResponse (inner : AsgiNode)
  | cls (c : MiddlewareCls) (kwargs : Kwargs) (inner : AsgiNode)
  deriving DecidableEq

/-- The external `ExceptionMiddleware`: an inner `app` and a mapping from
exception class to handler. -/
structure ExceptionMiddleware where
  app : AsgiNode
  handlers : List (ExcClass × Handler)
  deriving DecidableEq

/-- `exception_middleware.add_exception_handler(exception_cls, handler)`. -/
def ExceptionMiddleware.add_exception_handler (m : ExceptionMiddleware)
    (cls : ExcClass) (h : Handler) : ExceptionMiddleware :=
  { m with handlers := m.handlers ++ [(cls, h)] }

/-- The process-wide `settings` object (from `.config`), as far as the startup
guard reads it. -/
structure Settings where
  configured : Bool
  deriving DecidableEq

/-- The body of the `check_app` startup handler defined in `App.__init__`:
raise `RuntimeError` when `settings.configured` is falsy, else return. -/
def check_app (settings : Settings) : Option String :=
  if !settings.configured then
    some "You must call `configure(app)` before serving `app`. "
  else
    none

/-- The `App` state: one field per slot in `__slots__`
(`name`, `router`, `_exception_middleware`, `_asgi`, `_lifespan`). -/
structure App where
  name : Option String
  router : Router
  exception_middleware : ExceptionMiddleware
  asgi : AsgiNode
  lifespan : Lifespan
  deriving DecidableEq

/-- `App.__init__`: fresh router; exception middleware over the router with
`{HTTPError: error_to_json}`; ASGI chain
`RequestResponseMiddleware(ServerErrorMiddleware(exc_mw, handler=error_to_text))`;
fresh lifespan registry, to which `@self.on("startup")` adds `check_app`.
(`STORE.discover_default()` touches only the external provider store.) -/
def App.init (name : Option String) : App :=
  { name := name
    router := Router.new
    exception_middleware :=
      { app := AsgiNode.routerRef
        handlers := [(ExcClass.HTTPError, Handler.error_to_json)] }
    asgi :=
      AsgiNode.requestResponse
        (AsgiNode.serverError AsgiNode.excMiddlewareRef Handler.error_to_text)
    lifespan := Lifespan.new.add_event_handler "startup" EventHandler.check_app }

/-- `App.mount`: `return self.router.mount(prefix, app)` (in-place router
mutation, `None` returned). -/
def App.mount (a : App) (pre : String) (sub : Nat) : App × Unit :=
  let res := Router.mount a.router pre sub
  ({ a with router := res.1 }, res.2)

/-- `App.route`: `return self.router.route(pattern)`. -/
def App.route (a : App) (pattern : String) : RouteDecorator :=
  Router.route a.router pattern

/-- `App.websocket_route`: forwards the pattern and every keyword argument to
`self.router.websocket_route`. -/
def App.websocket_route (a : App) (pattern : String) (auto_accept : Bool)
    (value_type : Option String) (receive_type : Option String)
    (send_type : Option String) (caught_close_codes : Option (List Int)) :
    WSRouteDecorator :=
  Router.websocket_route a.router
    { pattern := pattern
      auto_accept := auto_accept
      value_type := value_type
      receive_type := receive_type
      send_type := send_type
      caught_close_codes := caught_close_codes }

/-- `App.add_error_handler`: delegates to
`self._exception_middleware.add_exception_handler`. -/
def App.add_error_handler (a : App) (cls : ExcClass) (h : Handler) : App :=
  { a with exception_middleware :=
      a.exception_middleware.add_exception_handler cls h }

/-- `App.error_handler`: returns the `wrapper` closure, which registers the
decorated handler via `add_error_handler` and returns the handler itself. -/
def App.error_handler (a : App) (cls : ExcClass) : Handler → App × Handler :=
  fun handler => (a.add_error_handler cls handler, handler)

/-- `App.add_middleware`: `self._exception_middleware.app =
middleware_cls(self._exception_middleware.app, **kwargs)`. -/
def App.add_middleware (a : App) (c : MiddlewareCls) (kwargs : Kwargs) : App :=
  { a with exception_middleware :=
      { a.exception_middleware with
        app := AsgiNode.cls c kwargs a.exception_middleware.app } }

/-- `App.add_asgi_middleware`: when the class has `__call__`, raise
`ValueError` if its signature lacks a `receive` or a `send` parameter
(legacy ASGI2); otherwise `self._asgi = middleware_cls(self._asgi, **kwargs)`.
The raise happens before the assignment, so on error the state is returned
unchanged. -/
def App.add_asgi_middleware (a : App) (c : MiddlewareCls) (kwargs : Kwargs) :
    App × Option String :=
  match c.call with
  | some ps =>
    if "receive" ∉ ps ∨ "send" ∉ ps then
      (a, some ("ASGI middleware class " ++ c.name ++
        " seems to be using the legacy ASGI2 interface. " ++
        "Please upgrade to ASGI3: (scope, receive, send) -> None"))
    else
      ({ a with asgi := AsgiNode.cls c kwargs a.asgi }, none)
  | none => ({ a with asgi := AsgiNode.cls c kwargs a.asgi }, none)

/-- `App.on`: with no handler, returns the `register` closure (appends the
decorated function and returns it); with a handler, appends it and returns
it. -/
def App.on (a : App) (event : String) (handler : Option EventHandler) :
    (EventHandler → App × EventHandler) ⊕ (App × EventHandler) :=
  match handler with
  | none =>
    Sum.inl (fun func =>
      ({ a with lifespan := a.lifespan.add_event_handler event func }, func))
  | some h =>
    Sum.inr ({ a with lifespan := a.lifespan.add_event_handler event h }, h)

/-- The connection scope, as far as `App.__call__` reads it (`scope["type"]`). -/
structure Scope where
  type : String
  deriving DecidableEq

/-- Which collaborator `App.__call__` delegates to. -/
inductive Delegate where
  | lifespan
  | asgi
  deriving DecidableEq

/-- `App.__call__`: dispatch on `scope["type"]`, forwarding scope, receive and
send unchanged to `self._lifespan` or `self._asgi`. -/
def App.call (a : App) (scope : Scope) (receive send : Nat) :
    Delegate × Scope × Nat × Nat :=
  if scope.type = "lifespan" then
    (Delegate.lifespan, scope, receive, send)
  else
    (Delegate.asgi, scope, receive, send)

/-- The state-modifying surface of `App` as defined in `applications.py`
(`recipe` excluded: its whole body runs external `Recipe.apply` code). -/
inductive AppOp where
  | mount (pre : String) (sub : Nat)
  | route (pattern : String)
  | websocket_route (args : WSRouteArgs)
  | add_error_handler (cls : ExcClass) (h : Handler)
  | error_handler (cls : ExcClass) (h : Handler)
  | add_middleware (c : MiddlewareCls) (kwargs : Kwargs)
  | add_asgi_middleware (c : MiddlewareCls) (kwargs : Kwargs)
  | on (event : String) (handler : Option EventHandler) (func : EventHandler)
  | call (scope : Scope) (receive send : Nat)
  deriving DecidableEq

/-- The `App` state after running one operation (for a raising
`add_asgi_middleware`, the state at the raise; for the decorator forms, the
state after the returned closure is applied). -/
def App.applyOp (a : App) : AppOp → App
  | AppOp.mount pre sub => (a.mount pre sub).1
  | AppOp.route _ => a
  | AppOp.websocket_route _ => a
  | AppOp.add_error_handler cls h => a.add_error_handler cls h
  | AppOp.error_handler cls h => (a.error_handler cls h).1
  | AppOp.add_middleware c k => a.add_middleware c k
  | AppOp.add_asgi_middleware c k => (a.add_asgi_middleware c k).1
  | AppOp.on event handler func =>
    (match a.on event handler with
     | Sum.inl reg => (reg func).1
     | Sum.inr r => r.1)
  | AppOp.call _ _ _ => a

/-- Modelled from the spec: the `API` application class and the host-allowlist
check are not under `src/` (only the test is). Per the spec, the
`allowed_hosts` option installs "an external host-allowlist check, which is
itself delegated to the external framework's middleware", and the test
"merely asserts an HTTP-level status code" of 400 when the host is not
allowed. `routes` records the registered HTTP route patterns. -/
structure APIApp where
  app : App
  allowed_hosts : List String
  routes : List String
  deriving DecidableEq

/-- Modelled from the spec: `API(allowed_hosts=...)` builds an app with the
host allowlist installed and no routes registered yet. -/
def API.init (allowed_hosts : List String) : APIApp :=
  { app := App.init none, allowed_hosts := allowed_hosts, routes := [] }

/-- Modelled from the spec: applying `@api.route(pattern)` to a view registers
the pattern. -/
def APIApp.register_route (api : APIApp) (pattern : String) : APIApp :=
  { api with routes := api.routes ++ [pattern] }

/-- Modelled from the spec: the status code of a GET request. The outermost
host-allowlist middleware answers 400 when the request host is not in the
allowlist; otherwise the request reaches the router (200 on a registered
route, 404 otherwise). -/
def APIApp.get (api : APIApp) (host : String) (path : String) : Nat :=
  if api.allowed_hosts.contains host then
    if api.routes.contains path then 200 else 404
  else 400

/-- On raise, `add_asgi_middleware` returns the untouched state; on success it
only wraps the previous `_asgi`. -/
theorem add_asgi_middleware_cases (a : App) (c : MiddlewareCls) (k : Kwargs) :
    (a.add_asgi_middleware c k).1 = a ∧ (a.add_asgi_middleware c k).2.isSome = true
    ∨ a.add_asgi_middleware c k = ({ a with asgi := AsgiNode.cls c k a.asgi }, none) := by
  cases hc : c.call with
  | none => right; simp [App.add_asgi_middleware, hc]
  | some ps =>
    by_cases hr : "receive" ∉ ps ∨ "send" ∉ ps
    · left; simp [App.add_asgi_middleware, hc, hr]
    · right; simp [App.add_asgi_middleware, hc, hr]

/-- C1: for every middleware class with a `__call__` attribute,
`add_asgi_middleware` raises `ValueError` exactly when the signature lacks a
`receive` or a `send` parameter; otherwise no error is raised and the class is
accepted (wrapped around the chain). -/
theorem C1_asgi3_signature_check (a : App) (c : MiddlewareCls) (k : Kwargs)
    (ps : List String) (hc : c.call = some ps) :
    ((a.add_asgi_middleware c k).2.isSome = true ↔ ("receive" ∉ ps ∨ "send" ∉ ps))
    ∧ (("receive" ∈ ps ∧ "send" ∈ ps) →
        a.add_asgi_middleware c k = ({ a with asgi := AsgiNode.cls c k a.asgi }, none)) := by
  by_cases hr : "receive" ∉ ps ∨ "send" ∉ ps
  · constructor
    · simp [App.add_asgi_middleware, hc, hr]
    · intro hok
      rcases hr with h1 | h1
      · exact absurd hok.1 h1
      · exact absurd hok.2 h1
  · constructor
    · simp only [App.add_asgi_middleware, hc, if_neg hr, Option.isSome_none,
        Bool.false_eq_true, false_iff]
      exact hr
    · intro _
      simp [App.add_asgi_middleware, hc, hr]

/-- C1 witness: a class whose `__call__` has `scope`, `receive` and `send`
parameters is accepted without error. -/
theorem C1_asgi3_signature_check_witness :
    (App.init none).add_asgi_middleware ⟨"M", some ["scope", "receive", "send"]⟩ []
      = ({ App.init none with
            asgi := AsgiNode.cls ⟨"M", some ["scope", "receive", "send"]⟩ []
              (App.init none).asgi }, none) :=
  (C1_asgi3_signature_check (App.init none) ⟨"M", some ["scope", "receive", "send"]⟩
    [] ["scope", "receive", "send"] rfl).2 (by decide)

/-- C2: every constructed `App` has `check_app` registered for `"startup"`,
and `check_app` raises `RuntimeError` exactly when the process-wide settings
report not configured. -/
theorem C2_startup_guard (name : Option String) (s : Settings) :
    (App.init name).lifespan.handlers = [("startup", EventHandler.check_app)]
    ∧ ((check_app s).isSome ↔ s.configured = false) := by
  constructor
  · rfl
  · cases hs : s.configured <;> simp [check_app, hs]

/-- C3: `App.__call__` delegates to the lifespan registry exactly when the
scope type is `"lifespan"`, to the ASGI chain otherwise, forwarding scope,
receive and send unchanged. -/
theorem C3_call_dispatch (a : App) (scope : Scope) (receive send : Nat) :
    ((a.call scope receive send).1 = Delegate.lifespan ↔ scope.type = "lifespan")
    ∧ ((a.call scope receive send).1 = Delegate.asgi ↔ scope.type ≠ "lifespan")
    ∧ (a.call scope receive send).2 = (scope, receive, send) := by
  unfold App.call
  by_cases ht : scope.type = "lifespan" <;> simp [ht]

/-- Every operation preserves the identity of the router and of the lifespan
registry: neither field is ever rebound to a fresh object. -/
theorem applyOp_preserves_ids (a : App) (op : AppOp) :
    (a.applyOp op).router.id = a.router.id
    ∧ (a.applyOp op).lifespan.id = a.lifespan.id := by
  cases op <;> try exact ⟨rfl, rfl⟩
  · -- add_asgi_middleware
    rename_i c k
    rcases add_asgi_middleware_cases a c k with ⟨h1, _⟩ | h1
    · simp only [App.applyOp, h1]
      exact ⟨trivial, trivial⟩
    · simp only [App.applyOp, h1]
      exact ⟨trivial, trivial⟩
  · -- on
    rename_i event handler func
    cases handler <;> exact ⟨rfl, rfl⟩

/-- C4: after construction the four pieces of behavioural state are exactly a
fresh router, the exception middleware over that router mapping `HTTPError`
to `error_to_json`, the chain
`RequestResponseMiddleware(ServerErrorMiddleware(exc_mw, error_to_text))`,
and the lifespan registry holding only the startup guard; and no operation
replaces the router or the lifespan registry (their identities are
preserved). -/
theorem C4_construction_state (name : Option String) (op : AppOp) (a : App) :
    (App.init name).router = Router.new
    ∧ (App.init name).exception_middleware =
        { app := AsgiNode.routerRef
          handlers := [(ExcClass.HTTPError, Handler.error_to_json)] }
    ∧ (App.init name).asgi =
        AsgiNode.requestResponse
          (AsgiNode.serverError AsgiNode.excMiddlewareRef Handler.error_to_text)
    ∧ (App.init name).lifespan.handlers = [("startup", EventHandler.check_app)]
    ∧ (a.applyOp op).router.id = a.router.id
    ∧ (a.applyOp op).lifespan.id = a.lifespan.id :=
  ⟨rfl, rfl, rfl, rfl, (applyOp_preserves_ids a op).1,
    (applyOp_preserves_ids a op).2⟩

/-- C5: `route`, `websocket_route` and `mount` return exactly what the
router's method of the same name returns on the same arguments, and `mount`
changes the router exactly as the router's own `mount` does. -/
theorem C5_routing_pass_through (a : App) (pattern pre : String) (sub : Nat)
    (args : WSRouteArgs) :
    a.route pattern = a.router.route pattern
    ∧ a.websocket_route args.pattern args.auto_accept args.value_type
        args.receive_type args.send_type args.caught_close_codes
      = a.router.websocket_route args
    ∧ (a.mount pre sub).2 = (Router.mount a.router pre sub).2
    ∧ (a.mount pre sub).1.router = (Router.mount a.router pre sub).1 := by
  refine ⟨rfl, ?_, rfl, rfl⟩
  cases args
  rfl

/-- C6: the decorator form of `on` is equivalent to the direct form and is the
identity on the decorated function, appending it to the callbacks of the
event; `error_handler` registers exactly as `add_error_handler` and returns
the same handler. -/
theorem C6_decorator_equivalence (a : App) (event : String) (f : EventHandler)
    (cls : ExcClass) (h : Handler) :
    Sum.elim (fun reg => reg f) id (a.on event none)
      = Sum.elim (fun reg => reg f) id (a.on event (some f))
    ∧ (Sum.elim (fun reg => reg f) id (a.on event none)).2 = f
    ∧ (Sum.elim (fun reg => reg f) id (a.on event none)).1.lifespan.callbacks event
      = a.lifespan.callbacks event ++ [f]
    ∧ a.error_handler cls h = (a.add_error_handler cls h, h) := by
  refine ⟨rfl, rfl, ?_, rfl⟩
  simp [App.on, Lifespan.callbacks, Lifespan.add_event_handler,
    List.filter_append, List.map_append]

/-- C7: an app built with `allowed_hosts=["example.com"]` and a route at `"/"`
answers a GET for `"/"` from a host outside the allowlist with status 400. -/
theorem C7_disallowed_host_400 (host : String)
    (hh : ¬ (["example.com"] : List String).contains host = true) :
    ((API.init ["example.com"]).register_route "/").get host "/" = 400 := by
  have hne : ¬ host = "example.com" := by
    intro he
    exact hh (by simp [he])
  simp [APIApp.get, API.init, APIApp.register_route, hne]

/-- C7 witness: the test client's default host `"testserver"` is not allowed,
so the response status is 400. -/
theorem C7_disallowed_host_400_witness :
    ((API.init ["example.com"]).register_route "/").get "testserver" "/" = 400 :=
  C7_disallowed_host_400 "testserver" (by decide)

/-- C8: when `add_asgi_middleware` raises `ValueError`, the app state is
exactly what it was before the call. -/
theorem C8_add_asgi_middleware_atomic (a : App) (c : MiddlewareCls) (k : Kwargs)
    (herr : (a.add_asgi_middleware c k).2.isSome = true) :
    (a.add_asgi_middleware c k).1 = a := by
  rcases add_asgi_middleware_cases a c k with ⟨h1, _⟩ | h1
  · exact h1
  · rw [h1] at herr
    simp at herr

/-- C8 witness: a legacy class whose `__call__` lacks `receive`/`send` raises
and leaves the freshly constructed app unchanged. -/
theorem C8_add_asgi_middleware_atomic_witness :
    ((App.init none).add_asgi_middleware ⟨"Legacy", some ["scope"]⟩ []).1
      = App.init none :=
  C8_add_asgi_middleware_atomic (App.init none) ⟨"Legacy", some ["scope"]⟩ []
    (by decide)

/-- C9: registration nests last-in-outermost: a successful
`add_asgi_middleware` replaces `_asgi` with the new class applied to the
previous chain, and `add_middleware` replaces the exception middleware's
inner app with the new class applied to the previous inner app. -/
theorem C9_last_in_outermost (a : App) (c : MiddlewareCls) (k : Kwargs) :
    (a.add_middleware c k).exception_middleware.app
      = AsgiNode.cls c k a.exception_middleware.app
    ∧ ((a.add_asgi_middleware c k).2 = none →
        (a.add_asgi_middleware c k).1.asgi = AsgiNode.cls c k a.asgi) := by
  constructor
  · rfl
  · intro hok
    rcases add_asgi_middleware_cases a c k with ⟨_, h2⟩ | h1
    · rw [hok] at h2; simp at h2
    · rw [h1]

/-- C9 witness: adding an ASGI3 class to a fresh app wraps it outermost. -/
theorem C9_last_in_outermost_witness :
    ((App.init none).add_asgi_middleware ⟨"M", some ["scope", "receive", "send"]⟩ []).1.asgi
      = AsgiNode.cls ⟨"M", some ["scope", "receive", "send"]⟩ [] (App.init none).asgi
    ∧ ((App.init none).add_middleware ⟨"M", some ["scope", "receive", "send"]⟩ []).exception_middleware.app
      = AsgiNode.cls ⟨"M", some ["scope", "receive", "send"]⟩ []
          (App.init none).exception_middleware.app :=
  let h := C9_last_in_outermost (App.init none)
    ⟨"M", some ["scope", "receive", "send"]⟩ []
  ⟨h.2 (by decide), h.1⟩

/-- C10: middleware registration touches only its own layer: `add_middleware`
leaves `name`, `router`, `_asgi`, `_lifespan` and the handler mapping
unchanged; a successful `add_asgi_middleware` leaves `name`, `router`,
`_exception_middleware` and `_lifespan` unchanged. -/
theorem C10_middleware_frame (a : App) (c : MiddlewareCls) (k : Kwargs) :
    ((a.add_middleware c k).name = a.name
      ∧ (a.add_middleware c k).router = a.router
      ∧ (a.add_middleware c k).asgi = a.asgi
      ∧ (a.add_middleware c k).lifespan = a.lifespan
      ∧ (a.add_middleware c k).exception_middleware.handlers
        = a.exception_middleware.handlers)
    ∧ ((a.add_asgi_middleware c k).2 = none →
        ((a.add_asgi_middleware c k).1.name = a.name
          ∧ (a.add_asgi_middleware c k).1.router = a.router
          ∧ (a.add_asgi_middleware c k).1.exception_middleware
            = a.exception_middleware
          ∧ (a.add_asgi_middleware c k).1.lifespan = a.lifespan)) := by
  refine ⟨⟨rfl, rfl, rfl, rfl, rfl⟩, ?_⟩
  intro _
  rcases add_asgi_middleware_cases a c k with ⟨h1, _⟩ | h1 <;>
    simp [h1]

/-- C10 witness: frame conditions at a concrete registration, both for
`add_middleware` and for a successful `add_asgi_middleware`. -/
theorem C10_middleware_frame_witness :
    ((App.init none).add_middleware ⟨"M", some ["scope", "receive", "send"]⟩ []).router
      = (App.init none).router
    ∧ ((App.init none).add_asgi_middleware ⟨"M", some ["scope", "receive", "send"]⟩ []).1.name
      = (App.init none).name
    ∧ ((App.init none).add_asgi_middleware ⟨"M", some ["scope", "receive", "send"]⟩ []).1.router
      = (App.init none).router :=
  let h := C10_middleware_frame (App.init none)
    ⟨"M", some ["scope", "receive", "send"]⟩ []
  let hs := h.2 (by decide)
  ⟨h.1.2.1, hs.1, hs.2.1⟩
